import Mathlib

/-!
Verification of the `httpx-catcher` content-addressable request/response
cache against its specification.

The development shallowly embeds the two source modules:

* `src/httpx_catcher/_catcher.py` — the `AsyncCatcherTransport` dispatcher
  (mode state machine, fingerprinting, write-behind buffer with flush,
  shelf-backed persistence, in-memory content-key index);
* `src/httpx_catcher/_dbm_sqlite.py` — the `_Database.__init__` open-flag
  logic of the embedded sqlite-backed key-value store.

Python dictionaries are embedded as association lists with last-write-wins
update, byte strings as `List Nat`, and the global random generator used by
`generate_random_name` as an explicit name supply `Nat → String` together
with a position counter carried in the state.  `httpx.Request.read()` /
`httpx.Response.aread()` (which materialize a lazily produced body) are
embedded as an `isRead` flag on the request/response record: the body bytes
field stands for the fully materialized stream, and the flag records whether
the source has forced that materialization.
-/

set_option autoImplicit false

namespace HttpxCatcher

/-- A byte string (`bytes` in the source). -/
abbrev Bytes := List Nat

/-- Embeds `type ContentKey = tuple[str, str, bytes]` — (method, url, body). -/
abbrev ContentKey := String × String × Bytes

/-- Lookup in a Python-dict embedding: first binding of the key wins
(bindings are kept unique by `setA`). -/
def lookupA {α : Type} {β : Type} [DecidableEq α] : List (α × β) → α → Option β
  | [], _ => none
  | (k, v) :: t, a => if k = a then some v else lookupA t a

/-- Assignment `d[k] = v` on a Python-dict embedding: replace the binding in place if the
key is present (Python dicts keep insertion order), else append. -/
def setA {α : Type} {β : Type} [DecidableEq α] : List (α × β) → α → β → List (α × β)
  | [], a, b => [(a, b)]
  | (k, v) :: t, a, b => if k = a then (a, b) :: t else (k, v) :: setA t a b

/-- An `httpx.Request`: method, URL, headers, and the request body.
`body` is the full byte stream backing the request; `isRead` records whether
`request.read()` has been called, i.e. whether the stream has been
materialized into `request.content`. -/
structure Request where
  method : String
  url : String
  headers : List (String × String)
  body : Bytes
  isRead : Bool
deriving DecidableEq

/-- Embeds `request.read()` — force full materialization of the body. -/
def readReq (r : Request) : Request := { r with isRead := true }

/-- An `httpx.Response`: status, headers, body bytes, the `aread()`
materialization flag, and the `_request` backpointer attribute. -/
structure Response where
  status : Nat
  headers : List (String × String)
  body : Bytes
  isRead : Bool
  request : Option Request
deriving DecidableEq

/-- Embeds `await response.aread()` — force full materialization of the response
body. -/
def aread (p : Response) : Response := { p with isRead := true }

/-- A value stored in the shelf: either the serialized content-key index
(stored under the reserved shelf key `"__keys__"`) or a pickled
`(request, response)` entry. -/
inductive ShelfVal where
  | keysVal (d : List (ContentKey × String))
  | entry (req : Request) (resp : Response)
deriving DecidableEq

/-- A log record emitted through `self.logger`. -/
inductive LogEvent where
  | warning (msg : String)
  | info (msg : String)
deriving DecidableEq

/-- The mutable state of an `AsyncCatcherTransport` instance:

* `shelf` — the persistent shelf (string key → pickled value);
* `mode` — the dispatch mode string, fixed at construction;
* `flushImmediately` / `flushLimit` — flush triggers (`flush_limit : int | None`);
* `keys` — `self._keys`, the in-memory content-key → shelf-key index;
* `queue` — `self._waiting_flush`, the FIFO write-behind buffer;
* `log` — the sequence of emitted log events;
* `ctr` — position of the global random generator in the name supply. -/
structure CatcherState where
  shelf : List (String × ShelfVal)
  mode : String
  flushImmediately : Bool
  flushLimit : Option Int
  keys : List (ContentKey × String)
  queue : List (Request × Response)
  log : List LogEvent
  ctr : Nat
deriving DecidableEq

/-- Embeds `AsyncCatcherTransport.generate_content_key`: read the body to
completion, then key on `(str(request.method), str(request.url),
request.content)`.  Returns the key together with the request as mutated by
`request.read()`. -/
def generate_content_key (r : Request) : ContentKey × Request :=
  ((r.method, r.url, r.body), readReq r)

/-- One iteration of the `flush` while-loop body: derive the content key
(reading the request), warn if the key is already present in `self._keys`,
draw a fresh random shelf name, and write both the index binding and the
shelf entry.  `supply` stands for `generate_random_name` (the stream of
30-character random names), indexed by the state counter. -/
def persistPair (supply : Nat → String) (s : CatcherState) (pr : Request × Response) :
    CatcherState :=
  let (ck, request) := generate_content_key pr.1
  let s :=
    if (lookupA s.keys ck).isSome then
      { s with log := s.log ++ [.warning (ck.2.1 ++ " already present in requests. override it.")] }
    else s
  let name := supply s.ctr
  { s with
    ctr := s.ctr + 1
    keys := setA s.keys ck name
    shelf := setA s.shelf name (.entry request pr.2) }

/-- The drain loop of `flush`, processing the queued pairs front first.  A
`(request, response)` pair is a non-empty tuple and hence always truthy, so
the loop condition `self._waiting_flush and (pair := ...popleft())` never
stops before the deque is empty. -/
def flushAux (supply : Nat → String) (q : List (Request × Response)) (s : CatcherState) :
    CatcherState :=
  q.foldl (persistPair supply) s

/-- The `f"{i} item{'s' * (i != 1)} flushed!"` info message. -/
def infoMsg (n : Nat) : String :=
  toString n ++ " item" ++ (if n = 1 then "" else "s") ++ " flushed!"

/-- Embeds `AsyncCatcherTransport.flush`: drain the entire buffer in FIFO order,
then log an info event if at least one item was flushed. -/
def flush (supply : Nat → String) (s : CatcherState) : CatcherState :=
  let s' := flushAux supply s.queue { s with queue := [] }
  if s.queue.length = 0 then s'
  else { s' with log := s'.log ++ [.info (infoMsg s.queue.length)] }

/-- Embeds `AsyncCatcherTransport.close`: flush, then persist the in-memory index
under the reserved shelf key `"__keys__"`. -/
def close (supply : Nat → String) (s : CatcherState) : CatcherState :=
  let s := flush supply s
  { s with shelf := setA s.shelf "__keys__" (.keysVal s.keys) }

/-- Embeds `AsyncCatcherTransport.store_requests`: force the response body to be
fully read, append the pair to the write-behind buffer, and flush
immediately when `self.flush_immediately or self.flush_limit is not None
and len(self._waiting_flush) >= self.flush_limit`.  The returned response is
the caller's response object as mutated by `aread()`. -/
def store_requests (supply : Nat → String) (s : CatcherState) (request : Request)
    (response : Response) : CatcherState × Response :=
  let response := aread response
  let s := { s with queue := s.queue ++ [(request, response)] }
  let trigger := s.flushImmediately ||
    (match s.flushLimit with
     | some n => decide (n ≤ (s.queue.length : Int))
     | none => false)
  (if trigger then flush supply s else s, response)

/-- The exceptions `find_request` can raise: `KeyError(content_key)` from
`self._keys[content_key]`, `KeyError(shelf_key)` from `self.shelf[key]`, or
the ill-typed unpacking of the reserved index blob (never a `KeyError`). -/
inductive FindErr where
  | keyError (ck : ContentKey)
  | shelfKeyError (k : String)
  | typeErr
deriving DecidableEq

/-- Embeds `AsyncCatcherTransport.find_request`: derive the content key, look it up
in the in-memory index (`KeyError` on miss), load the stored pair from the
shelf, and return the stored response with its `_request` attribute set to
the request unpacked from the shelf (the local name `request` is shadowed by
the tuple unpacking `request, response = self.shelf[key]` before
`response._request = request` runs). -/
def find_request (s : CatcherState) (request : Request) : Except FindErr Response :=
  let ck := (generate_content_key request).1
  match lookupA s.keys ck with
  | none => .error (.keyError ck)
  | some key =>
    match lookupA s.shelf key with
    | none => .error (.shelfKeyError key)
    | some (.keysVal _) => .error .typeErr
    | some (.entry req resp) => .ok { resp with request := some req }

/-- The live-fetch tail of `handle_async_request`: delegate to the wrapped
transport (`fetch`), and unless the mode is `"passive"` hand the pair to
`store_requests`. -/
def liveDispatch (supply : Nat → String) (fetch : Request → Response) (s : CatcherState)
    (request : Request) : CatcherState × Response :=
  let response := fetch request
  if s.mode = "passive" then (s, response)
  else store_requests supply s request response

/-- Embeds `AsyncCatcherTransport.handle_async_request`: `"use"` mode always
answers from the cache (errors propagate); `"hybrid"` mode tries the cache
and falls through to a live fetch only on `KeyError` (`suppress(KeyError)`);
every other mode performs a live fetch, storing the pair unless the mode is
`"passive"`. -/
def handle_async_request (supply : Nat → String) (fetch : Request → Response)
    (s : CatcherState) (request : Request) : Except FindErr (CatcherState × Response) :=
  if s.mode = "use" then
    match find_request s request with
    | .ok resp => .ok (s, resp)
    | .error e => .error e
  else if s.mode = "hybrid" then
    match find_request s request with
    | .ok resp => .ok (s, resp)
    | .error .typeErr => .error .typeErr
    | .error _ => .ok (liveDispatch supply fetch s request)
  else .ok (liveDispatch supply fetch s request)

/-- Embeds `AsyncCatcherTransport.__init__`: record the configuration and bind
`self._keys` to `self.shelf.setdefault("__keys__", {})`.  With
`writeback=False` and the caching of the shelf disabled, the value returned
by `setdefault` is an unpickled copy, so later mutations of `self._keys` do
not reach the shelf until `close` writes the index back.  Returns `none` in
the ill-typed case where the reserved key holds an entry blob instead of an
index (unreachable through this module's own writes). -/
def initTransport (shelf : List (String × ShelfVal)) (mode : String)
    (flushLimit : Option Int) : Option CatcherState :=
  match lookupA shelf "__keys__" with
  | some (.keysVal d) =>
    some { shelf := shelf, mode := mode, flushImmediately := false,
           flushLimit := flushLimit, keys := d, queue := [], log := [], ctr := 0 }
  | some (.entry _ _) => none
  | none =>
    some { shelf := setA shelf "__keys__" (.keysVal []), mode := mode,
           flushImmediately := false, flushLimit := flushLimit, keys := [],
           queue := [], log := [], ctr := 0 }

/-!
Embedding of `_dbm_sqlite._Database.__init__` — the open-flag logic of the
persistent store.  A sqlite file is embedded as a list of named tables, each
a list of (key, value) blob rows; the file system slot for the store path is
an `Option DBFile` (absent/present).  The spec's flag names map onto the
source's dbm letters: read-only = `"r"`, read-write = `"w"`, create =
`"c"`, recreate = `"n"`.
-/

/-- One sqlite table used as a key-value store: (key, value) blob rows. -/
abbrev Table := List (Bytes × Bytes)

/-- A sqlite database file: tables by name. -/
abbrev DBFile := List (String × Table)

/-- The exceptions `_Database.__init__` can raise: the `ValueError`s of the
flag/table validation, and the wrapped `sqlite3.Error` (`class error(OSError)`). -/
inductive DBOpenError where
  | valueError (msg : String)
  | oserror (msg : String)
deriving DecidableEq

/-- ASCII model of `str.isidentifier` (the table names this module uses are
ASCII): non-empty, first character a letter or underscore, rest letters,
digits or underscores. -/
def isIdentifierStr (s : String) : Bool :=
  match s.toList with
  | [] => false
  | c :: rest => (c.isAlpha || c = '_') && rest.all (fun d => d.isAlphanum || d = '_')

/-- Embeds the `_Database._build_queries` table-name validation: must be an identifier
and must not use the reserved `sqlite_` table prefix. -/
def checkTable (table : String) : Option DBOpenError :=
  if isIdentifierStr table = false then
    some (.valueError ("Table name must be identifier, not " ++ table))
  else if table.startsWith "sqlite_" then
    some (.valueError "Table name should not start with sqlite_, since it is reserved for internal use in sqlite")
  else none

/-- Embeds `CREATE TABLE IF NOT EXISTS ...` — idempotent schema creation. -/
def ensureTable (f : DBFile) (table : String) : DBFile :=
  if (lookupA f table).isSome then f else setA f table []

/-- The `sqlite3.connect` failure on a missing file in `ro`/`rw` mode,
wrapped into the store-level `error`. -/
def cantOpen : DBOpenError := .oserror "unable to open database file"

/-- Embeds `_Database.__init__` (via the module-level `open`): map the dbm flag to a
sqlite URI mode (`touch`ing or `unlink`ing the file for `"c"`/`"n"`),
connect (failing on a missing file unless the mode creates), validate the
table name, and for the creating modes run the idempotent schema creation.
Returns the resulting file content on success. -/
def dbOpen (file : Option DBFile) (flag : String) (table : String) :
    Except DBOpenError DBFile :=
  if flag = "r" || flag = "w" then
    match file with
    | none => .error cantOpen
    | some f =>
      match checkTable table with
      | some e => .error e
      | none => .ok f
  else if flag = "c" then
    let f := file.getD []
    match checkTable table with
    | some e => .error e
    | none => .ok (ensureTable f table)
  else if flag = "n" then
    match checkTable table with
    | some e => .error e
    | none => .ok (ensureTable [] table)
  else
    .error (.valueError ("Flag must be one of r, w, c, or n, not " ++ flag))

/-!
### Iteration helper and concrete fixtures

`storeMany` iterates `store_requests` over a list of pairs (the "any number
of enqueues" of the spec).  `natName` is a concrete injective name supply
standing in for `generate_random_name` in concrete evaluations; the concrete
states below are sample instances used to evaluate the theorems.
-/

/-- Enqueue a list of pairs one by one through `store_requests`. -/
def storeMany (supply : Nat → String) (ps : List (Request × Response))
    (s : CatcherState) : CatcherState :=
  ps.foldl (fun t pr => (store_requests supply t pr.1 pr.2).1) s

/-- A concrete injective name supply (never the reserved `"__keys__"`). -/
def natName (n : Nat) : String := "k" ++ toString n

/-- A sample stored response body. -/
def sampleResp : Response := ⟨200, [("content-kind", "t")], [7, 7], false, none⟩

/-- A sample live transport always answering `sampleResp`. -/
def sampleFetch : Request → Response := fun _ => sampleResp

def c1req : Request := ⟨"GET", "http://a", [("u", "1")], [1, 2], false⟩

def c1state : CatcherState :=
  { shelf := [("__keys__", .keysVal [])], mode := "store", flushImmediately := false,
    flushLimit := none, keys := [], queue := [], log := [], ctr := 0 }

def c2stored : Request := ⟨"GET", "http://x", [("h", "1")], [1, 2], true⟩

def c2live : Request := ⟨"GET", "http://x", [("h", "2")], [1, 2], false⟩

def c2resp : Response := ⟨200, [], [9], true, none⟩

def c2state : CatcherState :=
  { shelf := [("__keys__", .keysVal [(("GET", "http://x", [1, 2]), "kkk")]),
              ("kkk", .entry c2stored c2resp)],
    mode := "use", flushImmediately := false, flushLimit := none,
    keys := [(("GET", "http://x", [1, 2]), "kkk")], queue := [], log := [], ctr := 0 }

def c3body1 : Bytes := List.range 21

def c3body2 : Bytes := (List.range 21).map (fun b => b + 2)

def c3r1 : Request := ⟨"GET", "http://x", [], c3body1, false⟩

def c3r2 : Request := ⟨"GET", "http://x", [], c3body2, false⟩

def c3state : CatcherState :=
  { shelf := [("__keys__", .keysVal [])], mode := "use", flushImmediately := false,
    flushLimit := none, keys := [], queue := [], log := [], ctr := 0 }

def c4pairs : List (Request × Response) :=
  [(⟨"GET", "http://a", [], [1], false⟩, ⟨200, [], [5], false, none⟩),
   (⟨"GET", "http://b", [], [2], false⟩, ⟨201, [], [6], false, none⟩),
   (⟨"GET", "http://c", [], [3], false⟩, ⟨202, [], [7], false, none⟩)]

def c5state : CatcherState :=
  { shelf := [("__keys__", .keysVal [])], mode := "store", flushImmediately := false,
    flushLimit := none, keys := [],
    queue := [(⟨"GET", "http://a", [], [1], false⟩, ⟨200, [], [5], true, none⟩),
              (⟨"GET", "http://b", [], [2], false⟩, ⟨201, [], [6], true, none⟩)],
    log := [], ctr := 0 }

def c6req1 : Request := ⟨"GET", "http://dup", [("a", "1")], [4], false⟩

def c6req2 : Request := ⟨"GET", "http://dup", [("a", "2")], [4], false⟩

def c6resp1 : Response := ⟨200, [], [1], true, none⟩

def c6resp2 : Response := ⟨200, [], [2], true, none⟩

def c6state : CatcherState :=
  { shelf := [("__keys__", .keysVal [])], mode := "store", flushImmediately := false,
    flushLimit := none, keys := [], queue := [(c6req1, c6resp1), (c6req2, c6resp2)],
    log := [], ctr := 0 }

def c8file : DBFile := [("Dict", [([1], [2])])]

def c9state : CatcherState :=
  { shelf := [("__keys__", .keysVal [])], mode := "bogus", flushImmediately := false,
    flushLimit := none, keys := [], queue := [], log := [], ctr := 0 }

def c9req : Request := ⟨"POST", "http://z", [], [3], false⟩

def c10req : Request := ⟨"GET", "http://new", [], [8], false⟩

def c10resp : Response := ⟨200, [], [4], true, none⟩

def c10state : CatcherState :=
  { shelf := [("__keys__", .keysVal [])], mode := "store", flushImmediately := false,
    flushLimit := none, keys := [], queue := [(c10req, c10resp)], log := [], ctr := 0 }

/-! ### Basic lemmas about the dict embedding -/

theorem lookupA_setA_self {α β : Type} [DecidableEq α] (l : List (α × β)) (k : α) (v : β) :
    lookupA (setA l k v) k = some v := by
  induction l with
  | nil => simp [setA, lookupA]
  | cons hd t ih =>
    obtain ⟨k', v'⟩ := hd
    by_cases h : k' = k
    · simp [setA, lookupA, h]
    · simp [setA, lookupA, h, ih]

theorem lookupA_setA_ne {α β : Type} [DecidableEq α] (l : List (α × β)) (k a : α) (v : β)
    (h : k ≠ a) : lookupA (setA l k v) a = lookupA l a := by
  induction l with
  | nil => simp [setA, lookupA, h]
  | cons hd t ih =>
    obtain ⟨k', v'⟩ := hd
    by_cases h' : k' = k
    · subst h'
      simp [setA, lookupA, h]
    · simp [setA, lookupA, h', ih]

theorem lookupA_setA_isSome {α β : Type} [DecidableEq α] (l : List (α × β)) (k a : α) (v : β)
    (h : (lookupA l a).isSome = true) : (lookupA (setA l k v) a).isSome = true := by
  by_cases hk : k = a
  · subst hk
    simp [lookupA_setA_self]
  · rwa [lookupA_setA_ne l k a v hk]

/-! ### The flush loop -/

/-- Unfolding of one loop iteration. -/
theorem persistPair_def (supply : Nat → String) (s : CatcherState) (pr : Request × Response) :
    persistPair supply s pr =
      { s with
        log := if (lookupA s.keys (pr.1.method, pr.1.url, pr.1.body)).isSome then
            s.log ++ [.warning (pr.1.url ++ " already present in requests. override it.")]
          else s.log
        ctr := s.ctr + 1
        keys := setA s.keys (pr.1.method, pr.1.url, pr.1.body) (supply s.ctr)
        shelf := setA s.shelf (supply s.ctr) (.entry (readReq pr.1) pr.2) } := by
  by_cases h : (lookupA s.keys (pr.1.method, pr.1.url, pr.1.body)).isSome
  · simp [persistPair, generate_content_key, h]
  · simp [persistPair, generate_content_key, h]

theorem persistPair_ctr (supply : Nat → String) (s : CatcherState)
    (p : Request × Response) : (persistPair supply s p).ctr = s.ctr + 1 := by
  rw [persistPair_def]

theorem persistPair_keys (supply : Nat → String) (s : CatcherState)
    (p : Request × Response) :
    (persistPair supply s p).keys =
      setA s.keys (p.1.method, p.1.url, p.1.body) (supply s.ctr) := by
  rw [persistPair_def]

theorem persistPair_shelf (supply : Nat → String) (s : CatcherState)
    (p : Request × Response) :
    (persistPair supply s p).shelf =
      setA s.shelf (supply s.ctr) (.entry (readReq p.1) p.2) := by
  rw [persistPair_def]

theorem persistPair_queue (supply : Nat → String) (s : CatcherState)
    (p : Request × Response) : (persistPair supply s p).queue = s.queue := by
  rw [persistPair_def]

theorem persistPair_log (supply : Nat → String) (s : CatcherState)
    (p : Request × Response) :
    (persistPair supply s p).log = s.log ++
      (if (lookupA s.keys (p.1.method, p.1.url, p.1.body)).isSome then
        [LogEvent.warning (p.1.url ++ " already present in requests. override it.")]
      else []) := by
  rw [persistPair_def]
  by_cases h : (lookupA s.keys (p.1.method, p.1.url, p.1.body)).isSome <;> simp [h]

theorem flushAux_nil (supply : Nat → String) (s : CatcherState) :
    flushAux supply [] s = s := rfl

theorem flushAux_cons (supply : Nat → String) (p : Request × Response)
    (q : List (Request × Response)) (s : CatcherState) :
    flushAux supply (p :: q) s = flushAux supply q (persistPair supply s p) := rfl

theorem flushAux_append (supply : Nat → String) (q₁ q₂ : List (Request × Response))
    (s : CatcherState) :
    flushAux supply (q₁ ++ q₂) s = flushAux supply q₂ (flushAux supply q₁ s) :=
  List.foldl_append _ _ _ _

/-- The counter advances by exactly one per flushed pair. -/
theorem flushAux_ctr (supply : Nat → String) (q : List (Request × Response))
    (s : CatcherState) : (flushAux supply q s).ctr = s.ctr + q.length := by
  induction q generalizing s with
  | nil => simp [flushAux_nil]
  | cons p q ih =>
    rw [flushAux_cons, ih]
    simp [persistPair_def]
    omega

/-- Frame property of the drain loop on the shelf: a shelf key none of the
generated names hits is untouched. -/
theorem flushAux_shelf_frame (supply : Nat → String) (q : List (Request × Response))
    (s : CatcherState) (k : String)
    (h : ∀ j, j < q.length → supply (s.ctr + j) ≠ k) :
    lookupA (flushAux supply q s).shelf k = lookupA s.shelf k := by
  induction q generalizing s with
  | nil => simp [flushAux_nil]
  | cons p q ih =>
    rw [flushAux_cons]
    rw [ih]
    · rw [persistPair_def]
      exact lookupA_setA_ne _ _ _ _ (by simpa using h 0 (by simp))
    · intro j hj
      rw [persistPair_def]
      have := h (j + 1) (by simpa using Nat.succ_lt_succ hj)
      simpa [Nat.add_assoc, Nat.add_comm 1 j] using this

/-- Once a content key is present in the in-memory index, draining more
pairs keeps it present. -/
theorem flushAux_keys_mono (supply : Nat → String) (q : List (Request × Response))
    (s : CatcherState) (ck : ContentKey)
    (h : (lookupA s.keys ck).isSome = true) :
    (lookupA (flushAux supply q s).keys ck).isSome = true := by
  induction q generalizing s with
  | nil => simpa [flushAux_nil]
  | cons p q ih =>
    rw [flushAux_cons]
    apply ih
    rw [persistPair_def]
    exact lookupA_setA_isSome _ _ _ _ h

/-- Every queued pair's content key is present in the in-memory index after
the drain. -/
theorem flushAux_keys_mem (supply : Nat → String) (q : List (Request × Response))
    (s : CatcherState) (p : Request × Response) (hp : p ∈ q) :
    (lookupA (flushAux supply q s).keys (p.1.method, p.1.url, p.1.body)).isSome = true := by
  induction q generalizing s with
  | nil => cases hp
  | cons hd q ih =>
    rw [flushAux_cons]
    rcases List.mem_cons.mp hp with h | h
    · subst h
      apply flushAux_keys_mono
      rw [persistPair_def]
      simp [lookupA_setA_self]
    · exact ih _ h

/-- The projections of `flush` before the final info-log line. -/
theorem flush_shelf (supply : Nat → String) (s : CatcherState) :
    (flush supply s).shelf = (flushAux supply s.queue { s with queue := [] }).shelf := by
  unfold flush
  by_cases h : s.queue.length = 0 <;> simp [h]

theorem flush_keys (supply : Nat → String) (s : CatcherState) :
    (flush supply s).keys = (flushAux supply s.queue { s with queue := [] }).keys := by
  unfold flush
  by_cases h : s.queue.length = 0 <;> simp [h]

theorem flush_queue (supply : Nat → String) (s : CatcherState) :
    (flush supply s).queue = [] := by
  have hq : ∀ (q : List (Request × Response)) (t : CatcherState), t.queue = [] →
      (flushAux supply q t).queue = [] := by
    intro q
    induction q with
    | nil => intro t ht; simpa [flushAux_nil]
    | cons p q ih =>
      intro t ht
      rw [flushAux_cons]
      exact ih _ (by rw [persistPair_def]; exact ht)
  unfold flush
  by_cases h : s.queue.length = 0 <;> simp [h, hq s.queue { s with queue := [] } rfl]

/-- Flushing an empty buffer is a strict no-op on the whole state (in
particular nothing is written and nothing is logged). -/
theorem flush_empty (supply : Nat → String) (s : CatcherState) (h : s.queue = []) :
    flush supply s = s := by
  have hs : ({ s with queue := [] } : CatcherState) = s := by
    cases s
    simp_all
  unfold flush
  rw [h]
  simp [flushAux_nil, hs]

/-- Flush is idempotent: a second flush right after a first one changes
nothing. -/
theorem flush_flush (supply : Nat → String) (s : CatcherState) :
    flush supply (flush supply s) = flush supply s :=
  flush_empty supply _ (flush_queue supply s)

/-- The drain loop only appends to the log. -/
theorem flushAux_log_mono (supply : Nat → String) (q : List (Request × Response))
    (s : CatcherState) : ∃ t, (flushAux supply q s).log = s.log ++ t := by
  induction q generalizing s with
  | nil => exact ⟨[], by simp [flushAux_nil]⟩
  | cons p q ih =>
    rw [flushAux_cons]
    obtain ⟨t, ht⟩ := ih (persistPair supply s p)
    rw [persistPair_log] at ht
    exact ⟨_, by rw [ht, List.append_assoc]⟩

/-- After draining a queue whose last element is `p`, the in-memory index
maps `p`'s content key to the last generated name, and the shelf holds `p`'s
entry (request read, response as queued) under that name. -/
theorem flushAux_last (supply : Nat → String) (q₀ : List (Request × Response))
    (p : Request × Response) (s : CatcherState) :
    lookupA (flushAux supply (q₀ ++ [p]) s).keys (p.1.method, p.1.url, p.1.body)
        = some (supply (s.ctr + q₀.length)) ∧
    lookupA (flushAux supply (q₀ ++ [p]) s).shelf (supply (s.ctr + q₀.length))
        = some (.entry (readReq p.1) p.2) := by
  rw [flushAux_append]
  have hctr : (flushAux supply q₀ s).ctr = s.ctr + q₀.length := flushAux_ctr supply q₀ s
  rw [show flushAux supply [p] (flushAux supply q₀ s)
        = persistPair supply (flushAux supply q₀ s) p from rfl]
  rw [persistPair_def, hctr]
  exact ⟨lookupA_setA_self _ _ _, lookupA_setA_self _ _ _⟩

/-- Version of `flushAux_last` stated for `flush`. -/
theorem flush_last (supply : Nat → String) (s : CatcherState)
    (q₀ : List (Request × Response)) (p : Request × Response)
    (h : s.queue = q₀ ++ [p]) :
    lookupA (flush supply s).keys (p.1.method, p.1.url, p.1.body)
        = some (supply (s.ctr + q₀.length)) ∧
    lookupA (flush supply s).shelf (supply (s.ctr + q₀.length))
        = some (.entry (readReq p.1) p.2) := by
  rw [flush_keys, flush_shelf, h]
  exact flushAux_last supply q₀ p { s with queue := [] }

/-- The `i`-th queued pair is persisted under the `i`-th generated name; as
long as no later name collides with it, that binding survives the rest of
the drain. -/
theorem flushAux_get (supply : Nat → String) (q : List (Request × Response))
    (s : CatcherState) (i : Nat) (hi : i < q.length)
    (hfresh : ∀ j, i < j → j < q.length → supply (s.ctr + j) ≠ supply (s.ctr + i)) :
    lookupA (flushAux supply q s).shelf (supply (s.ctr + i)) =
      some (.entry (readReq (q.get ⟨i, hi⟩).1) (q.get ⟨i, hi⟩).2) := by
  induction q generalizing s i with
  | nil => simp at hi
  | cons p q ih =>
    rw [flushAux_cons]
    cases i with
    | zero =>
      rw [flushAux_shelf_frame]
      · rw [persistPair_shelf]
        simpa using lookupA_setA_self s.shelf (supply s.ctr) (.entry (readReq p.1) p.2)
      · intro j hj
        have h1 := hfresh (j + 1) (Nat.succ_pos j) (by simpa using Nat.succ_lt_succ hj)
        rw [persistPair_ctr]
        have harith : s.ctr + 1 + j = s.ctr + (j + 1) := by omega
        rw [harith]
        simpa using h1
    | succ i =>
      have hi' : i < q.length := Nat.lt_of_succ_lt_succ hi
      have hres := ih (persistPair supply s p) i hi' ?fresh
      case fresh =>
        intro j hij hjq
        have h1 := hfresh (j + 1) (Nat.succ_lt_succ hij) (by simpa using Nat.succ_lt_succ hjq)
        rw [persistPair_ctr]
        have ha : s.ctr + 1 + j = s.ctr + (j + 1) := by omega
        have hb : s.ctr + 1 + i = s.ctr + (i + 1) := by omega
        rw [ha, hb]
        exact h1
      rw [persistPair_ctr] at hres
      have hb : s.ctr + 1 + i = s.ctr + (i + 1) := by omega
      rw [hb] at hres
      simpa using hres

/-! ### Unfolding lemmas for `store_requests` -/

theorem store_requests_fst (supply : Nat → String) (s : CatcherState) (r : Request)
    (p : Response) :
    (store_requests supply s r p).1 =
      (if (s.flushImmediately ||
            (match s.flushLimit with
             | some n => decide (n ≤ ((s.queue.length + 1 : Nat) : Int))
             | none => false)) = true
       then flush supply { s with queue := s.queue ++ [(r, aread p)] }
       else { s with queue := s.queue ++ [(r, aread p)] }) := by
  simp [store_requests]

theorem store_requests_snd (supply : Nat → String) (s : CatcherState) (r : Request)
    (p : Response) : (store_requests supply s r p).2 = aread p := rfl

/-- Characterization of a `find_request` hit: the stored response is
returned with its `_request` attribute rebound to the stored request. -/
theorem find_request_found (s : CatcherState) (r req : Request) (resp : Response)
    (k : String) (h1 : lookupA s.keys (r.method, r.url, r.body) = some k)
    (h2 : lookupA s.shelf k = some (.entry req resp)) :
    find_request s r = .ok { resp with request := some req } := by
  simp [find_request, generate_content_key, h1, h2]

/-- Characterization of a `find_request` miss: the bare `KeyError` carrying
the full content key. -/
theorem find_request_miss (s : CatcherState) (r : Request)
    (h : lookupA s.keys (r.method, r.url, r.body) = none) :
    find_request s r = .error (.keyError (r.method, r.url, r.body)) := by
  simp [find_request, generate_content_key, h]

/-! ### The claims -/

/-- Claim C7. Fingerprint derivation forces full materialization of the request
body before keying (`request.read()` is called, and the key's body component
is the fully materialized byte stream), and any two requests that agree on
method, URL and body bytes — whatever their other attributes, headers
included — derive equal content keys. -/
theorem c7_fingerprint_deterministic :
    (∀ r : Request, ((generate_content_key r).2).isRead = true ∧
      (generate_content_key r).1 = (r.method, r.url, r.body)) ∧
    (∀ r1 r2 : Request, r1.method = r2.method → r1.url = r2.url → r1.body = r2.body →
      (generate_content_key r1).1 = (generate_content_key r2).1) := by
  constructor
  · intro r
    exact ⟨rfl, rfl⟩
  · intro r1 r2 hm hu hb
    simp [generate_content_key, hm, hu, hb]

/-- Witness for C7: two concrete requests differing only in headers and read
state derive equal keys. -/
theorem c7_fingerprint_deterministic_witness :
    (generate_content_key ⟨"GET", "http://a", [("x", "1")], [1, 2, 3], false⟩).1 =
      (generate_content_key ⟨"GET", "http://a", [("y", "2")], [1, 2, 3], true⟩).1 :=
  c7_fingerprint_deterministic.2 _ _ rfl rfl rfl

/-- Claim C8. The store's open operation recognizes exactly the four dbm flags
(read-only = `"r"`, read-write = `"w"`, create = `"c"`, recreate = `"n"`):
`"r"`/`"w"` open an existing store and fail when it is absent, `"c"` opens
an existing store or creates a fresh one, `"n"` unconditionally discards any
existing store and creates a fresh empty one, and every other flag value is
rejected with the configuration `ValueError`. -/
theorem c8_open_flags (table : String) (f : DBFile) (flag : String)
    (hid : isIdentifierStr table = true) (hpre : table.startsWith "sqlite_" = false) :
    dbOpen none "r" table = .error cantOpen ∧
    dbOpen (some f) "r" table = .ok f ∧
    dbOpen none "w" table = .error cantOpen ∧
    dbOpen (some f) "w" table = .ok f ∧
    dbOpen none "c" table = .ok (ensureTable [] table) ∧
    dbOpen (some f) "c" table = .ok (ensureTable f table) ∧
    dbOpen (some f) "n" table = .ok (ensureTable [] table) ∧
    dbOpen none "n" table = .ok (ensureTable [] table) ∧
    (flag ≠ "r" → flag ≠ "w" → flag ≠ "c" → flag ≠ "n" →
      dbOpen (some f) flag table =
        .error (.valueError ("Flag must be one of r, w, c, or n, not " ++ flag))) := by
  have hck : checkTable table = none := by
    simp [checkTable, hid, hpre]
  refine ⟨?_, ?_, ?_, ?_, ?_, ?_, ?_, ?_, ?_⟩
  · simp [dbOpen]
  · simp [dbOpen, hck]
  · simp [dbOpen]
  · simp [dbOpen, hck]
  · simp [dbOpen, hck]
  · simp [dbOpen, hck]
  · simp [dbOpen, hck]
  · simp [dbOpen, hck]
  · intro h1 h2 h3 h4
    simp [dbOpen, h1, h2, h3, h4]

/-- Witness for C8: on the table `"Dict"` the flag `"x"` is rejected as a
configuration error, while `"n"` discards the existing content. -/
theorem c8_open_flags_witness :
    dbOpen (some c8file) "n" "Dict" = .ok (ensureTable [] "Dict") ∧
    dbOpen (some c8file) "x" "Dict" =
      .error (.valueError ("Flag must be one of r, w, c, or n, not " ++ "x")) := by
  have h := c8_open_flags "Dict" c8file "x" (by decide) (by decide)
  exact ⟨h.2.2.2.2.2.2.1, h.2.2.2.2.2.2.2.2 (by decide) (by decide) (by decide) (by decide)⟩

/-- Claim C4. An enqueue through `store_requests` triggers an immediate flush
(observable as the buffer being left empty) exactly when the
flush-immediately setting is active or the flush limit is a set integer the
new buffer length has reached; and with the flush limit unset (`None`) and
flush-immediately inactive, any number of enqueues leaves the persistent
shelf, the index and the log unchanged — the pairs merely accumulate in the
buffer until an explicit flush or close. -/
theorem c4_flush_trigger (supply : Nat → String) (s : CatcherState) (r : Request)
    (p : Response) (ps : List (Request × Response)) :
    ((store_requests supply s r p).1.queue = [] ↔
      (s.flushImmediately = true ∨
        ∃ n : Int, s.flushLimit = some n ∧ n ≤ ((s.queue.length + 1 : Nat) : Int))) ∧
    (s.flushLimit = none → s.flushImmediately = false →
      (storeMany supply ps s).shelf = s.shelf ∧
      (storeMany supply ps s).keys = s.keys ∧
      (storeMany supply ps s).log = s.log ∧
      (storeMany supply ps s).queue = s.queue ++ ps.map (fun q => (q.1, aread q.2))) := by
  constructor
  · rw [store_requests_fst]
    by_cases hti : s.flushImmediately
    · simp [hti, flush_queue]
    · cases hfl : s.flushLimit with
      | none => simp [hti, hfl]
      | some n =>
        by_cases hle : n ≤ (s.queue.length : Int) + 1
        · simp [hti, hfl, hle, flush_queue]
        · simp [hti, hfl, hle]
  · intro hfl hti
    induction ps generalizing s with
    | nil => simp [storeMany]
    | cons q ps ih =>
      have hstep : (store_requests supply s q.1 q.2).1 =
          { s with queue := s.queue ++ [(q.1, aread q.2)] } := by
        rw [store_requests_fst, hfl, hti]
        simp
      have hrec := ih { s with queue := s.queue ++ [(q.1, aread q.2)] } hfl hti
      have hunfold : storeMany supply (q :: ps) s =
          storeMany supply ps { s with queue := s.queue ++ [(q.1, aread q.2)] } := by
        simp [storeMany, hstep]
      rw [hunfold]
      refine ⟨hrec.1, hrec.2.1, hrec.2.2.1, ?_⟩
      rw [hrec.2.2.2]
      simp

/-- Witness for C4: with `flush_limit = None` the three concrete enqueues of
`c4pairs` leave the shelf of `c1state` unchanged. -/
theorem c4_flush_trigger_witness :
    (storeMany natName c4pairs c1state).shelf = c1state.shelf :=
  ((c4_flush_trigger natName c1state c1req sampleResp c4pairs).2 rfl rfl).1

/-- Claim C5. Every flush drains the buffer completely; a flush of an empty
buffer is a strict no-op (no store write, no log event — the whole state is
unchanged); and the queued pairs are persisted in enqueue order: as long as
the drawn random names do not collide among themselves, the `i`-th queued
pair ends up in the shelf under the `i`-th generated name, with its request
read to completion. -/
theorem c5_flush_complete_ordered (supply : Nat → String) (s : CatcherState) :
    (flush supply s).queue = [] ∧
    (s.queue = [] → flush supply s = s) ∧
    (∀ i, (hi : i < s.queue.length) →
      (∀ j, j < s.queue.length → ∀ k, k < s.queue.length →
        supply (s.ctr + j) = supply (s.ctr + k) → j = k) →
      lookupA (flush supply s).shelf (supply (s.ctr + i)) =
        some (.entry (readReq (s.queue.get ⟨i, hi⟩).1) (s.queue.get ⟨i, hi⟩).2)) := by
  refine ⟨flush_queue supply s, flush_empty supply s, ?_⟩
  intro i hi hinj
  rw [flush_shelf]
  have := flushAux_get supply s.queue { s with queue := [] } i hi ?fresh
  case fresh =>
    intro j hij hj
    intro heq
    exact absurd (hinj j hj i (Nat.lt_trans hij hj) heq) (Nat.ne_of_gt hij)
  simpa using this

/-- Witness for C5: flushing the two-element queue of `c5state` under the
injective supply `natName` persists the first pair under the first name. -/
theorem c5_flush_complete_ordered_witness :
    lookupA (flush natName c5state).shelf (natName 0) =
      some (.entry ⟨"GET", "http://a", [], [1], true⟩ ⟨200, [], [5], true, none⟩) := by
  have h := (c5_flush_complete_ordered natName c5state).2.2 0 (by decide) (by decide)
  simpa [c5state, readReq] using h

/-- Claim C6. Flushing a buffer holding two pairs with the same content key
(same method, URL and body) leaves only the second pair retrievable through
`find_request`, emits a warning-level log event for the overwritten key, and
raises no exception (the lookup succeeds with `.ok`). -/
theorem c6_last_write_wins (supply : Nat → String) (s : CatcherState)
    (p1 p2 : Request × Response) (hq : s.queue = [p1, p2])
    (hm : p1.1.method = p2.1.method) (hu : p1.1.url = p2.1.url)
    (hb : p1.1.body = p2.1.body) :
    find_request (flush supply s) p2.1 = .ok { p2.2 with request := some (readReq p2.1) } ∧
    LogEvent.warning (p2.1.url ++ " already present in requests. override it.")
      ∈ (flush supply s).log := by
  have hq' : s.queue = [p1] ++ [p2] := by simpa using hq
  obtain ⟨hkeys, hshelf⟩ := flush_last supply s [p1] p2 hq'
  constructor
  · have hkeys' : lookupA (flush supply s).keys (p2.1.method, p2.1.url, p2.1.body)
        = some (supply (s.ctr + 1)) := by simpa using hkeys
    have hshelf' : lookupA (flush supply s).shelf (supply (s.ctr + 1))
        = some (.entry (readReq p2.1) p2.2) := by simpa using hshelf
    exact find_request_found _ _ _ _ _ hkeys' hshelf'
  · have hlen : s.queue.length ≠ 0 := by rw [hq]; simp
    have hlog : (flush supply s).log =
        (flushAux supply s.queue { s with queue := [] }).log ++
          [.info (infoMsg s.queue.length)] := by
      unfold flush
      simp [hlen]
    rw [hlog, hq']
    have hstep : flushAux supply ([p1] ++ [p2]) { s with queue := [] } =
        persistPair supply (persistPair supply { s with queue := [] } p1) p2 := rfl
    rw [hstep, persistPair_log]
    have hsome : (lookupA (persistPair supply { s with queue := [] } p1).keys
        (p2.1.method, p2.1.url, p2.1.body)).isSome = true := by
      rw [persistPair_keys]
      rw [← hm, ← hu, ← hb]
      simp [lookupA_setA_self]
    rw [hsome]
    simp

/-- Witness for C6: flushing `c6state` (two pairs keyed on
`GET http://dup [4]`) returns the second response on lookup and logs the
override warning. -/
theorem c6_last_write_wins_witness :
    find_request (flush natName c6state) c6req2 =
      .ok { c6resp2 with request := some (readReq c6req2) } ∧
    LogEvent.warning (c6req2.url ++ " already present in requests. override it.")
      ∈ (flush natName c6state).log :=
  c6_last_write_wins natName c6state (c6req1, c6resp1) (c6req2, c6resp2) rfl rfl rfl rfl

/-- Claim C1. Round trip: dispatching a request `R` in `store` mode (live
fetch plus enqueue) and then flushing makes a later `use`-mode dispatch of
any request with the same method, URL and body bytes against the same store
return the response originally fetched for `R`: the same status, headers,
body and read state — the returned record differs only in its `_request`
backpointer, which `find_request` rebinds to the stored request. -/
theorem c1_round_trip (supply : Nat → String) (fetch : Request → Response)
    (s : CatcherState) (R Rp : Request) (hmode : s.mode = "store")
    (hm : Rp.method = R.method) (hu : Rp.url = R.url) (hb : Rp.body = R.body) :
    ∃ s1, handle_async_request supply fetch s R = .ok (s1, aread (fetch R)) ∧
      handle_async_request supply fetch { flush supply s1 with mode := "use" } Rp =
        .ok ({ flush supply s1 with mode := "use" },
          { aread (fetch R) with request := some (readReq R) }) := by
  refine ⟨(store_requests supply s R (fetch R)).1, ?_, ?_⟩
  · have h1 : handle_async_request supply fetch s R =
        .ok (store_requests supply s R (fetch R)) := by
      simp [handle_async_request, hmode, liveDispatch]
    rw [h1]
    exact congrArg Except.ok (by rw [← store_requests_snd supply s R (fetch R)])
  · have hflush : flush supply (store_requests supply s R (fetch R)).1 =
        flush supply { s with queue := s.queue ++ [(R, aread (fetch R))] } := by
      rw [store_requests_fst]
      by_cases htrig : (s.flushImmediately ||
          (match s.flushLimit with
           | some n => decide (n ≤ ((s.queue.length + 1 : Nat) : Int))
           | none => false)) = true
      · rw [if_pos htrig, flush_flush]
      · rw [if_neg htrig]
    obtain ⟨hkeys, hshelf⟩ := flush_last supply
      { s with queue := s.queue ++ [(R, aread (fetch R))] } s.queue (R, aread (fetch R)) rfl
    set s2 : CatcherState :=
      { flush supply (store_requests supply s R (fetch R)).1 with mode := "use" } with hs2
    have hkeys2 : lookupA s2.keys (Rp.method, Rp.url, Rp.body) =
        some (supply (s.ctr + s.queue.length)) := by
      rw [hs2, hm, hu, hb]
      simpa [hflush] using hkeys
    have hshelf2 : lookupA s2.shelf (supply (s.ctr + s.queue.length)) =
        some (.entry (readReq R) (aread (fetch R))) := by
      rw [hs2]
      simpa [hflush] using hshelf
    have hfind := find_request_found s2 Rp (readReq R) (aread (fetch R)) _ hkeys2 hshelf2
    have hmode2 : s2.mode = "use" := by rw [hs2]
    simp [handle_async_request, hmode2, hfind]

/-- Witness for C1: concrete round trip of `c1req` through `c1state` with
the transport `sampleFetch`. -/
theorem c1_round_trip_witness :
    ∃ s1, handle_async_request natName sampleFetch c1state c1req =
        .ok (s1, aread (sampleFetch c1req)) ∧
      handle_async_request natName sampleFetch { flush natName s1 with mode := "use" } c1req =
        .ok ({ flush natName s1 with mode := "use" },
          { aread (sampleFetch c1req) with request := some (readReq c1req) }) :=
  c1_round_trip natName sampleFetch c1state c1req c1req rfl rfl rfl rfl

/-- Claim C10. The content-key index lives in memory and is written back to
the shelf (under the reserved key `"__keys__"`) only by `close`: a flush
stores each queued entry under a fresh random shelf name but leaves the
persisted `"__keys__"` value untouched, so while the flushing instance keeps
the flushed key in its in-memory index, a freshly constructed instance over
the flushed shelf starts from the stale persisted index and `find_request`
on the flushed key fails with a `KeyError`. -/
theorem c10_index_only_on_close (supply : Nat → String) (s : CatcherState)
    (idx0 : List (ContentKey × String)) (m : String) (fl : Option Int)
    (r req0 : Request) (resp0 : Response)
    (hidx : lookupA s.shelf "__keys__" = some (.keysVal idx0))
    (hsup : ∀ j, j < s.queue.length → supply (s.ctr + j) ≠ "__keys__")
    (hmem : (req0, resp0) ∈ s.queue)
    (hkm : req0.method = r.method) (hku : req0.url = r.url) (hkb : req0.body = r.body)
    (hnotin : lookupA idx0 (r.method, r.url, r.body) = none) :
    lookupA (flush supply s).shelf "__keys__" = some (.keysVal idx0) ∧
    (lookupA (flush supply s).keys (r.method, r.url, r.body)).isSome = true ∧
    ∃ t, initTransport (flush supply s).shelf m fl = some t ∧ t.keys = idx0 ∧
      find_request t r = .error (.keyError (r.method, r.url, r.body)) := by
  have hframe : lookupA (flush supply s).shelf "__keys__" = some (.keysVal idx0) := by
    rw [flush_shelf, flushAux_shelf_frame]
    · simpa using hidx
    · simpa using hsup
  refine ⟨hframe, ?_, ?_⟩
  · rw [flush_keys]
    have := flushAux_keys_mem supply s.queue { s with queue := [] } (req0, resp0)
      (by simpa using hmem)
    rw [hkm, hku, hkb] at this
    simpa using this
  · refine ⟨⟨(flush supply s).shelf, m, false, fl, idx0, [], [], 0⟩, ?_, rfl, ?_⟩
    · unfold initTransport
      rw [hframe]
    · exact find_request_miss _ r hnotin

/-- Witness for C10: flushing `c10state` leaves the persisted index empty,
and a fresh `use`-mode instance over the flushed shelf misses on the key the
flush just persisted. -/
theorem c10_index_only_on_close_witness :
    lookupA (flush natName c10state).shelf "__keys__" = some (.keysVal []) ∧
    (lookupA (flush natName c10state).keys
      (c10req.method, c10req.url, c10req.body)).isSome = true ∧
    ∃ t, initTransport (flush natName c10state).shelf "use" none = some t ∧
      t.keys = [] ∧
      find_request t c10req =
        .error (.keyError (c10req.method, c10req.url, c10req.body)) :=
  c10_index_only_on_close natName c10state [] "use" none c10req c10req c10resp
    rfl (by decide) (by decide) rfl rfl rfl rfl

/-- Claim C2, amended. On every `use`/`hybrid`-mode cache hit, the returned
response is the stored response rebound to the *stored* request object
persisted with the entry — not to the caller's live request: in
`find_request` the tuple unpacking `request, response = self.shelf[key]`
shadows the `request` parameter before `response._request = request` runs. -/
theorem c2_rebinds_to_stored_request (s : CatcherState) (r req : Request)
    (resp : Response) (k : String)
    (h1 : lookupA s.keys (r.method, r.url, r.body) = some k)
    (h2 : lookupA s.shelf k = some (.entry req resp)) :
    find_request s r = .ok { resp with request := some req } :=
  find_request_found s r req resp k h1 h2

/-- Witness for C2 (amended): concrete hit on `c2state`. -/
theorem c2_rebinds_to_stored_request_witness :
    find_request c2state c2live = .ok { c2resp with request := some c2stored } :=
  c2_rebinds_to_stored_request c2state c2live c2stored c2resp "kkk" rfl rfl

/-- Claim C2 is false as stated: a `use`-mode hit on `c2state` by the live
request `c2live` (headers `h: 2`) returns the stored response bound to the
stored request `c2stored` (headers `h: 1`), which differs from the live
request the caller passed in — also after accounting for the read flag the
lookup sets on the live request. -/
theorem c2_counterexample :
    find_request c2state c2live = .ok { c2resp with request := some c2stored } ∧
    some c2stored ≠ some c2live ∧
    some c2stored ≠ some (readReq c2live) := by
  refine ⟨rfl, by decide, by decide⟩

/-- Claim C3, amended. A `use`-mode dispatch whose content key is absent from
the in-memory index fails with the bare `KeyError` raised by
`self._keys[content_key]`, carrying the full content key — method, URL and
the entire body bytes — whatever the body length; no body-size-tiered
diagnostic message exists. -/
theorem c3_miss_raises_keyerror (supply : Nat → String) (fetch : Request → Response)
    (s : CatcherState) (r : Request) (hmode : s.mode = "use")
    (hmiss : lookupA s.keys (r.method, r.url, r.body) = none) :
    handle_async_request supply fetch s r =
      .error (.keyError (r.method, r.url, r.body)) := by
  have h := find_request_miss s r hmiss
  simp [handle_async_request, hmode, h]

/-- Witness for C3 (amended): concrete `use`-mode miss on `c3state`. -/
theorem c3_miss_raises_keyerror_witness :
    handle_async_request natName sampleFetch c3state c3r1 =
      .error (.keyError (c3r1.method, c3r1.url, c3r1.body)) :=
  c3_miss_raises_keyerror natName sampleFetch c3state c3r1 rfl rfl

/-- Claim C3 is false as stated: two `use`-mode misses on requests identical
except for their 21-byte bodies produce *different* failures, each carrying
the full literal body bytes — whereas the claimed tiering says a body longer
than 20 bytes yields a diagnostic citing only the byte length (hence equal
for equal lengths and free of the body bytes).  No
`"no response found for URL"` message is produced on any tier: the failure
is the bare `KeyError` payload. -/
theorem c3_counterexample :
    handle_async_request natName sampleFetch c3state c3r1 =
      .error (.keyError ("GET", "http://x", c3body1)) ∧
    handle_async_request natName sampleFetch c3state c3r2 =
      .error (.keyError ("GET", "http://x", c3body2)) ∧
    c3body1.length = 21 ∧ c3body2.length = 21 ∧
    FindErr.keyError ("GET", "http://x", c3body1) ≠
      FindErr.keyError ("GET", "http://x", c3body2) := by
  refine ⟨rfl, rfl, rfl, rfl, by decide⟩

/-- Claim C9, amended. Construction performs no mode validation: any mode
string is accepted silently (construction over an empty shelf always
succeeds), and a mode outside the four recognized values is given a
fallback behavior — at dispatch it behaves exactly like `store` mode, i.e.
live fetch followed by `store_requests`. -/
theorem c9_no_mode_validation (m : String) (fl : Option Int) (supply : Nat → String)
    (fetch : Request → Response) (s : CatcherState) (r : Request)
    (h1 : s.mode ≠ "use") (h2 : s.mode ≠ "hybrid") (h3 : s.mode ≠ "passive") :
    (initTransport [] m fl).isSome = true ∧
    handle_async_request supply fetch s r = .ok (store_requests supply s r (fetch r)) := by
  constructor
  · rfl
  · simp [handle_async_request, h1, h2, liveDispatch, h3]

/-- Witness for C9 (amended): the unrecognized mode `"bogus"` of `c9state`
dispatches like `store` mode. -/
theorem c9_no_mode_validation_witness :
    (initTransport [] "bogus" none).isSome = true ∧
    handle_async_request natName sampleFetch c9state c9req =
      .ok (store_requests natName c9state c9req (sampleFetch c9req)) :=
  c9_no_mode_validation "bogus" none natName sampleFetch c9state c9req
    (by decide) (by decide) (by decide)

/-- Claim C9 is false as stated: constructing a cache instance with the mode
`"bogus"` — outside the four recognized values — raises nothing at
construction time: it succeeds and yields a normal transport state, and a
subsequent dispatch silently performs the `store`-mode fallback (live fetch
plus enqueue) instead of failing. -/
theorem c9_counterexample :
    initTransport [] "bogus" none = some c9state ∧
    handle_async_request natName sampleFetch c9state c9req =
      .ok ({ c9state with queue := [(c9req, aread sampleResp)] }, aread sampleResp) := by
  refine ⟨rfl, rfl⟩

end HttpxCatcher
